import Mathlib

/-!
Verification of the hackrf_one_mqtt streaming pipeline core.

Shallow embedding of: the bounded thread-safe queue
(include/thread_safe_queue.h), the HackRF receive callback and the MQTT
publisher loop (src/main.cpp), the HackRF handler state transitions
(src/hackrf_handler.cpp), the control command dispatcher and the
orchestrator shutdown paths (src/main.cpp).
-/

namespace HackrfMqtt

/-- State of `ThreadSafeQueue<T>`: `cap` models the `max_size_` member
(0 means unbounded), `items` the contents of the underlying `std::queue`,
front first. -/
structure QState (T : Type) where
  cap : Nat
  items : List T
  deriving DecidableEq

/-- Model of `ThreadSafeQueue::try_push` (thread_safe_queue.h lines 26-36):
if `max_size_ > 0 && queue_.size() >= max_size_` it returns `false` leaving
the queue unchanged, otherwise it pushes at the back and returns `true`. -/
def try_push {T : Type} (v : T) (q : QState T) : Bool × QState T :=
  if 0 < q.cap ∧ q.cap ≤ q.items.length then (false, q)
  else (true, ⟨q.cap, q.items ++ [v]⟩)

/-- Model of `ThreadSafeQueue::try_pop` (thread_safe_queue.h lines 60-68):
returns `nullopt` on an empty queue, otherwise removes and returns the
front element.  `wait_and_pop` has the same effect on a non-empty queue. -/
def try_pop {T : Type} (q : QState T) : Option T × QState T :=
  match q.items with
  | [] => (none, q)
  | x :: xs => (some x, ⟨q.cap, xs⟩)

/-- Model of `ThreadSafeQueue::wait_for_and_pop` (thread_safe_queue.h lines
72-81).  The timed wait is abstracted to its outcome: the call times out
(`wait_for` returns false) exactly when the queue is still empty when the
wait ends, in which case it returns `nullopt` and removes nothing;
otherwise it removes and returns the front element. -/
def wait_for_and_pop {T : Type} (q : QState T) : Option T × QState T :=
  match q.items with
  | [] => (none, q)
  | x :: xs => (some x, ⟨q.cap, xs⟩)

/-- One queue operation issued by a client: a producer offer (`try_push`)
or a consumer pop. -/
inductive QOp (T : Type) where
  | offer (v : T)
  | pop
  deriving DecidableEq

/-- Run a sequence of queue operations, keeping only the queue state. -/
def runOps {T : Type} (ops : List (QOp T)) (q : QState T) : QState T :=
  match ops with
  | [] => q
  | QOp.offer v :: rest => runOps rest (try_push v q).2
  | QOp.pop :: rest => runOps rest (try_pop q).2

/-- Offer a list of values in order; the boolean is true when every single
`try_push` succeeded (no drop happened). -/
def offerAll {T : Type} (vs : List T) (q : QState T) : Bool × QState T :=
  match vs with
  | [] => (true, q)
  | v :: rest =>
    let p := try_push v q
    let r := offerAll rest p.2
    (p.1 && r.1, r.2)

/-- Pop `n` times, collecting the returned elements in order. -/
def popN {T : Type} (n : Nat) (q : QState T) : List T × QState T :=
  match n with
  | 0 => ([], q)
  | Nat.succ m =>
    match try_pop q with
    | (none, q') => ([], q')
    | (some x, q') =>
      let r := popN m q'
      (x :: r.1, r.2)

lemma try_push_cap {T : Type} (v : T) (q : QState T) : (try_push v q).2.cap = q.cap := by
  unfold try_push
  split <;> rfl

lemma try_pop_cap {T : Type} (q : QState T) : (try_pop q).2.cap = q.cap := by
  unfold try_pop
  rcases q with ⟨c, items⟩
  cases items <;> rfl

lemma try_push_len_le {T : Type} (v : T) (q : QState T) (h : 0 < q.cap)
    (hlen : q.items.length ≤ q.cap) : (try_push v q).2.items.length ≤ q.cap := by
  unfold try_push
  split
  · exact hlen
  · rename_i hfull
    simp only [List.length_append, List.length_cons, List.length_nil]
    omega

lemma try_pop_len_le {T : Type} (q : QState T) (hlen : q.items.length ≤ q.cap) :
    (try_pop q).2.items.length ≤ q.cap := by
  unfold try_pop
  rcases q with ⟨c, items⟩
  cases items with
  | nil => exact hlen
  | cons x xs =>
    simp only [List.length_cons] at hlen ⊢
    omega

lemma runOps_len_le {T : Type} (c : Nat) (hc : 0 < c) (ops : List (QOp T)) :
    ∀ q : QState T, q.cap = c → q.items.length ≤ c → (runOps ops q).items.length ≤ c := by
  induction ops with
  | nil => intro q hq hlen; exact hlen
  | cons op rest ih =>
    intro q hq hlen
    cases op with
    | offer v =>
      refine ih _ (by rw [try_push_cap, hq]) ?_
      have h1 := try_push_len_le v q (hq.symm ▸ hc) (hq.symm ▸ hlen)
      omega
    | pop =>
      refine ih _ (by rw [try_pop_cap, hq]) ?_
      have h1 := try_pop_len_le q (hq.symm ▸ hlen)
      omega

lemma runOps_unbounded (n : Nat) :
    ∀ L : List Nat, (runOps (List.replicate n (QOp.offer 0)) ⟨0, L⟩).items = L ++ List.replicate n 0 := by
  induction n with
  | zero => intro L; simp [runOps]
  | succ m ih =>
    intro L
    have hpush : try_push (0 : Nat) (⟨0, L⟩ : QState Nat) = (true, ⟨0, L ++ [0]⟩) := by
      unfold try_push; simp
    simp only [List.replicate_succ, runOps, hpush]
    rw [ih (L ++ [0])]
    simp [List.replicate_succ]

lemma offerAll_ok {T : Type} (vs : List T) :
    ∀ q : QState T, (offerAll vs q).1 = true → (offerAll vs q).2 = ⟨q.cap, q.items ++ vs⟩ := by
  induction vs with
  | nil => intro q _; simp [offerAll]
  | cons v rest ih =>
    intro q hok
    unfold offerAll at hok ⊢
    simp only [Bool.and_eq_true] at hok
    obtain ⟨hv, hrest⟩ := hok
    have hpush : try_push v q = (true, ⟨q.cap, q.items ++ [v]⟩) := by
      unfold try_push at hv ⊢
      split at hv
      · simp at hv
      · rename_i hcond
        rw [if_neg hcond]
    simp only [hpush] at hrest ⊢
    rw [ih _ hrest]
    simp

lemma popN_all {T : Type} (L : List T) :
    ∀ c : Nat, popN L.length (⟨c, L⟩ : QState T) = (L, ⟨c, []⟩) := by
  induction L with
  | nil => intro c; rfl
  | cons x xs ih =>
    intro c
    simp only [List.length_cons, popN, try_pop]
    rw [ih c]

/-- C1: for a queue of capacity C > 0, `try_push` on a queue holding C items
returns false and leaves the contents unchanged; otherwise (capacity 0, or
fewer than C items) it appends at the back and returns true; over any
sequence of offers and pops starting from the empty queue the size never
exceeds C; and with capacity 0 every offer succeeds so the size grows
without bound. -/
theorem c1_bounded_offer_semantics :
    (∀ (T : Type) (q : QState T) (v : T), 0 < q.cap → q.items.length = q.cap →
      try_push v q = (false, q)) ∧
    (∀ (T : Type) (q : QState T) (v : T), q.cap = 0 ∨ q.items.length < q.cap →
      try_push v q = (true, ⟨q.cap, q.items ++ [v]⟩)) ∧
    (∀ (T : Type) (c : Nat) (ops : List (QOp T)), 0 < c →
      (runOps ops (⟨c, []⟩ : QState T)).items.length ≤ c) ∧
    (∀ n : Nat, (runOps (List.replicate n (QOp.offer 0)) (⟨0, []⟩ : QState Nat)).items.length = n) := by
  refine ⟨?_, ?_, ?_, ?_⟩
  · intro T q v hc hlen
    unfold try_push
    rw [if_pos ⟨hc, le_of_eq hlen.symm⟩]
  · intro T q v h
    unfold try_push
    rw [if_neg]
    rcases h with h0 | hlt
    · intro ⟨hpos, _⟩; omega
    · intro ⟨_, hge⟩; omega
  · intro T c ops hc
    exact runOps_len_le c hc ops ⟨c, []⟩ rfl (by simp)
  · intro n
    have := runOps_unbounded n []
    simp only [List.nil_append] at this
    rw [this]
    simp

/-- Witness for C1 at concrete inputs. -/
theorem c1_witness :
    try_push (5 : Nat) (⟨1, [7]⟩ : QState Nat) = (false, ⟨1, [7]⟩) ∧
    try_push (5 : Nat) (⟨0, []⟩ : QState Nat) = (true, ⟨0, [5]⟩) ∧
    (runOps [QOp.offer (1 : Nat), QOp.offer 2, QOp.pop] (⟨1, []⟩ : QState Nat)).items.length ≤ 1 := by
  refine ⟨?_, ?_, ?_⟩
  · exact c1_bounded_offer_semantics.1 Nat ⟨1, [7]⟩ 5 (by decide) (by decide)
  · exact c1_bounded_offer_semantics.2.1 Nat ⟨0, []⟩ 5 (Or.inl rfl)
  · exact c1_bounded_offer_semantics.2.2.1 Nat 1 [QOp.offer 1, QOp.offer 2, QOp.pop] (by decide)

/-- C2: offering N chunks into an initially empty queue with every offer
succeeding, then popping N times, yields exactly those chunks in order
(FIFO); and the concrete capacity-2 trace of the spec scenario holds with
chunks A = 0, B = 1, C = 2. -/
theorem c2_fifo_preservation :
    (∀ (T : Type) (vs : List T) (q q' : QState T), q.items = [] →
      offerAll vs q = (true, q') → popN vs.length q' = (vs, ⟨q.cap, []⟩)) ∧
    (try_push (0 : Nat) (⟨2, []⟩ : QState Nat) = (true, ⟨2, [0]⟩) ∧
     try_push 1 (⟨2, [0]⟩ : QState Nat) = (true, ⟨2, [0, 1]⟩) ∧
     try_push 2 (⟨2, [0, 1]⟩ : QState Nat) = (false, ⟨2, [0, 1]⟩) ∧
     try_pop (⟨2, [0, 1]⟩ : QState Nat) = (some 0, ⟨2, [1]⟩) ∧
     try_push 2 (⟨2, [1]⟩ : QState Nat) = (true, ⟨2, [1, 2]⟩) ∧
     try_pop (⟨2, [1, 2]⟩ : QState Nat) = (some 1, ⟨2, [2]⟩) ∧
     try_pop (⟨2, [2]⟩ : QState Nat) = (some 2, ⟨2, []⟩)) := by
  constructor
  · intro T vs q q' hempty hoffer
    have h1 : (offerAll vs q).1 = true := by rw [hoffer]
    have h2 : (offerAll vs q).2 = q' := by rw [hoffer]
    have := offerAll_ok vs q h1
    rw [h2, hempty] at this
    simp only [List.nil_append] at this
    rw [this]
    exact popN_all vs q.cap
  · decide

/-- Witness for C2 at concrete inputs. -/
theorem c2_witness :
    popN 2 (⟨2, [3, 4]⟩ : QState Nat) = ([3, 4], ⟨2, []⟩) := by
  have h := c2_fifo_preservation.1 Nat [3, 4] ⟨2, []⟩ ⟨2, [3, 4]⟩ rfl (by decide)
  simpa using h

/-- C8: a `wait_for_and_pop` call that ends in a timeout (the queue is
still empty when the wait ends) returns the empty sentinel and removes
nothing; when an item is available it removes and returns the front. -/
theorem c8_pop_timeout_removes_nothing :
    ∀ (T : Type) (q : QState T),
      (q.items = [] → wait_for_and_pop q = (none, q)) ∧
      (∀ (x : T) (xs : List T), q.items = x :: xs →
        wait_for_and_pop q = (some x, ⟨q.cap, xs⟩)) := by
  intro T q
  rcases q with ⟨c, items⟩
  cases items with
  | nil =>
    refine ⟨fun _ => rfl, fun x xs h => ?_⟩
    simp at h
  | cons y ys =>
    refine ⟨fun h => by simp at h, fun x xs h => ?_⟩
    have h' : y = x ∧ ys = xs := by simpa using h
    obtain ⟨rfl, rfl⟩ := h'
    rfl

/-- Witness for C8 at concrete inputs. -/
theorem c8_witness :
    wait_for_and_pop (⟨3, []⟩ : QState Nat) = (none, ⟨3, []⟩) ∧
    wait_for_and_pop (⟨3, [5, 6]⟩ : QState Nat) = (some 5, ⟨3, [6]⟩) :=
  ⟨(c8_pop_timeout_removes_nothing Nat ⟨3, []⟩).1 rfl,
   (c8_pop_timeout_removes_nothing Nat ⟨3, [5, 6]⟩).2 5 [6] rfl⟩

/-- The `hackrf_transfer` descriptor seen by the receive callback:
`buffer` with `valid_length` valid bytes, and whether `rx_ctx` carries a
non-null queue pointer. -/
structure Transfer where
  buffer : List Nat
  valid_length : Nat
  ctxValid : Bool
  deriving DecidableEq

/-- Outcome of one receive-callback invocation: the value returned to
libhackrf, the resulting queue, and whether a chunk was built and offered. -/
structure RxResult where
  retval : Int
  queue : QState (List Nat)
  offerAttempted : Bool
  deriving DecidableEq

/-- Model of `hackrf_rx_callback` (main.cpp lines 31-47): if the
`keep_running` flag is cleared it returns -1; otherwise, when the context
pointer is valid and `valid_length > 0`, it copies the first
`valid_length` bytes into a chunk and offers it with `try_push`, keeping
the queue unchanged when the offer is rejected; it then returns 0. -/
def hackrf_rx_callback (keepRunning : Bool) (t : Transfer) (q : QState (List Nat)) : RxResult :=
  if keepRunning = false then ⟨-1, q, false⟩
  else if t.ctxValid = true ∧ 0 < t.valid_length then
    if (try_push (t.buffer.take t.valid_length) q).1 = true then
      ⟨0, (try_push (t.buffer.take t.valid_length) q).2, true⟩
    else ⟨0, q, true⟩
  else ⟨0, q, false⟩

/-- C3: the producer callback returns -1 exactly when the shutdown flag is
cleared; with the flag set, a zero-length buffer creates no chunk and
offers nothing; and when the queue rejects the offer the chunk is
discarded (queue unchanged) and the callback still returns 0. -/
theorem c3_producer_callback :
    ∀ (keepRunning : Bool) (t : Transfer) (q : QState (List Nat)),
      ((hackrf_rx_callback keepRunning t q).retval = -1 ↔ keepRunning = false) ∧
      (keepRunning = true → t.valid_length = 0 →
        hackrf_rx_callback keepRunning t q = ⟨0, q, false⟩) ∧
      (keepRunning = true → (try_push (t.buffer.take t.valid_length) q).1 = false →
        (hackrf_rx_callback keepRunning t q).retval = 0 ∧
        (hackrf_rx_callback keepRunning t q).queue = q) := by
  intro k t q
  cases k with
  | false =>
    refine ⟨by simp [hackrf_rx_callback], fun h _ => by simp at h, fun h _ => by simp at h⟩
  | true =>
    refine ⟨?_, ?_, ?_⟩
    · unfold hackrf_rx_callback
      rw [if_neg (by decide : ¬(true = false))]
      split_ifs <;> decide
    · intro _ hlen
      unfold hackrf_rx_callback
      rw [if_neg (by decide : ¬(true = false)), if_neg (by simp [hlen])]
    · intro _ hpush
      unfold hackrf_rx_callback
      rw [if_neg (by decide : ¬(true = false))]
      by_cases hc : t.ctxValid = true ∧ 0 < t.valid_length
      · rw [if_pos hc, if_neg (by simp [hpush])]
        exact ⟨rfl, rfl⟩
      · rw [if_neg hc]
        exact ⟨rfl, rfl⟩

/-- Witness for C3 at concrete inputs. -/
theorem c3_witness :
    ((hackrf_rx_callback true ⟨[1, 2], 0, true⟩ ⟨1, []⟩).retval = -1 ↔ true = false) ∧
    hackrf_rx_callback true ⟨[1, 2], 0, true⟩ ⟨1, []⟩ = ⟨0, ⟨1, []⟩, false⟩ ∧
    (hackrf_rx_callback true ⟨[9], 1, true⟩ ⟨1, [[7]]⟩).queue = ⟨1, [[7]]⟩ := by
  refine ⟨(c3_producer_callback true ⟨[1, 2], 0, true⟩ ⟨1, []⟩).1, ?_, ?_⟩
  · exact (c3_producer_callback true ⟨[1, 2], 0, true⟩ ⟨1, []⟩).2.1 rfl rfl
  · exact ((c3_producer_callback true ⟨[9], 1, true⟩ ⟨1, [[7]]⟩).2.2 rfl (by decide)).2

/-- State of `HackRFHandler`: `deviceOpen` models a non-null `device_`,
`streamingFlag` the `streaming_` member, and `devStreaming` the device
runtime's own streaming state as reported by `hackrf_is_streaming`
(made true by a successful `hackrf_start_rx`, false by a successful
`hackrf_stop_rx`). -/
structure HandlerState where
  deviceOpen : Bool
  streamingFlag : Bool
  devStreaming : Bool
  deriving DecidableEq

/-- Model of `HackRFHandler::is_streaming` (hackrf_handler.cpp lines
174-181): false without a device, otherwise the device-reported state. -/
def is_streaming (h : HandlerState) : Bool :=
  h.deviceOpen && h.devStreaming

/-- Model of `HackRFHandler::start_rx` (hackrf_handler.cpp lines 136-154):
fails when the device is not open or already streaming; otherwise calls
`hackrf_start_rx`, whose success (`devAccepts`) registers the callback,
starts the device and sets `streaming_`. -/
def start_rx (h : HandlerState) (devAccepts : Bool) : Bool × HandlerState :=
  if h.deviceOpen = false then (false, h)
  else if h.streamingFlag = true then (false, h)
  else if devAccepts = true then (true, ⟨h.deviceOpen, true, true⟩)
  else (false, h)

/-- Model of `HackRFHandler::stop_rx` (hackrf_handler.cpp lines 156-172):
a no-op returning false when not open or not streaming; otherwise calls
`hackrf_stop_rx`; on success clears the streaming state and returns true,
and on failure still forces `streaming_` to false but returns false
(the device-reported state is left as it was). -/
def stop_rx (h : HandlerState) (devStopOk : Bool) : Bool × HandlerState :=
  if h.deviceOpen = false ∨ h.streamingFlag = false then (false, h)
  else if devStopOk = true then (true, ⟨h.deviceOpen, false, false⟩)
  else (false, ⟨h.deviceOpen, false, h.devStreaming⟩)

/-- C10: when the device is open and the internal streaming flag is set,
`stop_rx` always leaves the internal flag false, even when the underlying
stop operation fails, in which case it returns false with the expected
state forced to not-streaming. -/
theorem c10_stop_rx_forces_not_streaming :
    ∀ (h : HandlerState) (devStopOk : Bool),
      h.deviceOpen = true → h.streamingFlag = true →
      ((stop_rx h devStopOk).2.streamingFlag = false ∧
       (devStopOk = false →
         stop_rx h devStopOk = (false, ⟨true, false, h.devStreaming⟩))) := by
  intro h k
  rcases h with ⟨o, s, d⟩
  revert o s d k
  decide

/-- Witness for C10 at concrete inputs. -/
theorem c10_witness :
    (stop_rx ⟨true, true, true⟩ false).2.streamingFlag = false ∧
    stop_rx ⟨true, true, true⟩ false = (false, ⟨true, false, true⟩) := by
  have h := c10_stop_rx_forces_not_streaming ⟨true, true, true⟩ false rfl rfl
  exact ⟨h.1, h.2 rfl⟩

/-- Outcome classification of one control-dispatcher invocation:
a state transition, a logged no-op, a logged resume failure, or an
unknown command warning. -/
inductive CtrlEvent where
  | transition
  | noop
  | resumeError
  | unknownCmd
  deriving DecidableEq

/-- Device-environment outcomes for one dispatcher invocation: whether
`hackrf_start_rx` and `hackrf_stop_rx` succeed when called. -/
structure CtrlEnv where
  startOk : Bool
  stopOk : Bool
  deriving DecidableEq

/-- The composite control state: the `hackrf_should_be_streaming` atomic
flag plus the handler state. -/
structure CtrlState where
  shouldBeStreaming : Bool
  handler : HandlerState
  deriving DecidableEq

/-- Result of one control-dispatcher invocation, with a count of
`start_rx` calls made (the code contains exactly one such call on the
resume path and never loops). -/
structure DispatchResult where
  state : CtrlState
  event : CtrlEvent
  startAttempts : Nat
  deriving DecidableEq

/-- Model of the `control_command_handler` lambda (main.cpp lines
160-185): on "PAUSE", if the flag and the device-reported state are both
streaming it stops and clears the flag regardless of the stop result,
else logs a no-op; on "RESUME", if both are not streaming it calls
`start_rx`, setting the flag only on success and logging an error on
failure, else logs a no-op; anything else is an unknown command. -/
def control_command_handler (payload : String) (st : CtrlState) (env : CtrlEnv) : DispatchResult :=
  if payload = "PAUSE" then
    if st.shouldBeStreaming = true ∧ is_streaming st.handler = true then
      ⟨⟨false, (stop_rx st.handler env.stopOk).2⟩, CtrlEvent.transition, 0⟩
    else ⟨st, CtrlEvent.noop, 0⟩
  else if payload = "RESUME" then
    if st.shouldBeStreaming = false ∧ is_streaming st.handler = false then
      let p := start_rx st.handler env.startOk
      if p.1 then ⟨⟨true, p.2⟩, CtrlEvent.transition, 1⟩
      else ⟨⟨st.shouldBeStreaming, p.2⟩, CtrlEvent.resumeError, 1⟩
    else ⟨st, CtrlEvent.noop, 0⟩
  else ⟨st, CtrlEvent.unknownCmd, 0⟩

/-- C4: a RESUME dispatched while the composite state is not streaming
whose device registration fails leaves the expected state not-streaming,
logs an error, makes exactly one registration attempt, and a later RESUME
succeeds once the device accepts registration. -/
theorem c4_resume_failure_leaves_paused :
    ∀ (st : CtrlState) (e1 e2 : CtrlEnv),
      st.shouldBeStreaming = false → is_streaming st.handler = false →
      st.handler.deviceOpen = true → st.handler.streamingFlag = false →
      e1.startOk = false → e2.startOk = true →
      ((control_command_handler "RESUME" st e1).state.shouldBeStreaming = false ∧
       (control_command_handler "RESUME" st e1).event = CtrlEvent.resumeError ∧
       (control_command_handler "RESUME" st e1).startAttempts = 1 ∧
       (control_command_handler "RESUME" (control_command_handler "RESUME" st e1).state e2).event = CtrlEvent.transition ∧
       (control_command_handler "RESUME" (control_command_handler "RESUME" st e1).state e2).state.shouldBeStreaming = true ∧
       is_streaming (control_command_handler "RESUME" (control_command_handler "RESUME" st e1).state e2).state.handler = true) := by
  intro st e1 e2
  rcases st with ⟨flag, o, s, d⟩
  rcases e1 with ⟨a1, b1⟩
  rcases e2 with ⟨a2, b2⟩
  revert flag o s d a1 b1 a2 b2
  decide

/-- Witness for C4 at concrete inputs. -/
theorem c4_witness :
    (control_command_handler "RESUME" ⟨false, ⟨true, false, false⟩⟩ ⟨false, true⟩).event = CtrlEvent.resumeError ∧
    (control_command_handler "RESUME"
      (control_command_handler "RESUME" ⟨false, ⟨true, false, false⟩⟩ ⟨false, true⟩).state
      ⟨true, true⟩).state.shouldBeStreaming = true := by
  have h := c4_resume_failure_leaves_paused ⟨false, ⟨true, false, false⟩⟩ ⟨false, true⟩ ⟨true, true⟩
    rfl rfl rfl rfl rfl rfl
  exact ⟨h.2.1, h.2.2.2.2.1⟩

/-- C5: dispatching PAUSE twice from a streaming composite state yields
one transition then one no-op, never an error, ending not-streaming;
dispatching RESUME twice from a paused state with the device accepting
registration yields one transition then one no-op, ending streaming. -/
theorem c5_pause_resume_idempotent :
    ∀ (st : CtrlState) (e1 e2 : CtrlEnv),
      (st.shouldBeStreaming = true → is_streaming st.handler = true →
        ((control_command_handler "PAUSE" st e1).event = CtrlEvent.transition ∧
         (control_command_handler "PAUSE" (control_command_handler "PAUSE" st e1).state e2).event = CtrlEvent.noop ∧
         (control_command_handler "PAUSE" st e1).state.shouldBeStreaming = false ∧
         (control_command_handler "PAUSE" (control_command_handler "PAUSE" st e1).state e2).state.shouldBeStreaming = false)) ∧
      (st.shouldBeStreaming = false → is_streaming st.handler = false →
        st.handler.deviceOpen = true → st.handler.streamingFlag = false → e1.startOk = true →
        ((control_command_handler "RESUME" st e1).event = CtrlEvent.transition ∧
         (control_command_handler "RESUME" (control_command_handler "RESUME" st e1).state e2).event = CtrlEvent.noop ∧
         (control_command_handler "RESUME" (control_command_handler "RESUME" st e1).state e2).state.shouldBeStreaming = true ∧
         is_streaming (control_command_handler "RESUME" (control_command_handler "RESUME" st e1).state e2).state.handler = true)) := by
  intro st e1 e2
  rcases st with ⟨flag, o, s, d⟩
  rcases e1 with ⟨a1, b1⟩
  rcases e2 with ⟨a2, b2⟩
  cases flag <;> cases o <;> cases s <;> cases d <;> cases a1 <;> cases b1 <;>
    cases a2 <;> cases b2 <;> decide

/-- Witness for C5 at concrete inputs. -/
theorem c5_witness :
    (control_command_handler "PAUSE" ⟨true, ⟨true, true, true⟩⟩ ⟨true, true⟩).event = CtrlEvent.transition ∧
    (control_command_handler "PAUSE"
      (control_command_handler "PAUSE" ⟨true, ⟨true, true, true⟩⟩ ⟨true, true⟩).state
      ⟨true, true⟩).event = CtrlEvent.noop ∧
    (control_command_handler "RESUME"
      (control_command_handler "RESUME" ⟨false, ⟨true, false, false⟩⟩ ⟨true, true⟩).state
      ⟨true, true⟩).event = CtrlEvent.noop := by
  have h1 := (c5_pause_resume_idempotent ⟨true, ⟨true, true, true⟩⟩ ⟨true, true⟩ ⟨true, true⟩).1 rfl rfl
  have h2 := (c5_pause_resume_idempotent ⟨false, ⟨true, false, false⟩⟩ ⟨true, true⟩ ⟨true, true⟩).2
    rfl rfl rfl rfl rfl
  exact ⟨h1.1, h1.2.1, h2.2.1⟩

/-- Log severities of the logger macros used by the publisher loop. -/
inductive LogLevel where
  | debug
  | info
  | warn
  | error
  deriving DecidableEq

/-- Observable outcome of one publisher-loop iteration that popped a
chunk: published, publish returned an error code, or the chunk was
discarded because the client is disconnected. -/
inductive PubEvent where
  | published
  | pubError
  | droppedDisconnected
  deriving DecidableEq

/-- Severity at which each publisher event is logged in the source:
publish failures with LOG_ERROR, disconnected drops with LOG_DEBUG,
successful publishes silently. -/
def pubEventLog : PubEvent → Option LogLevel
  | PubEvent.published => none
  | PubEvent.pubError => some LogLevel.error
  | PubEvent.droppedDisconnected => some LogLevel.debug

/-- Result of one publisher-loop iteration: the queue afterwards, whether
`publish_message` was invoked, and the logged event if a chunk was popped. -/
structure IterResult where
  queue : QState (List Nat)
  publishAttempted : Bool
  event : Option PubEvent
  deriving DecidableEq

/-- Model of one iteration of `mqtt_publisher_thread_func` (main.cpp lines
57-80): `wait_for_and_pop` with a 100 ms timeout; on a chunk, if connected
it publishes (`publishRc` is the code returned by `publish_message`,
0 meaning MOSQ_ERR_SUCCESS) and logs an error on failure without pushing
the chunk back; if disconnected the chunk is discarded with a debug log. -/
def mqtt_publisher_thread_step (q : QState (List Nat)) (connected : Bool) (publishRc : Int) : IterResult :=
  match wait_for_and_pop q with
  | (none, q') => ⟨q', false, none⟩
  | (some _, q') =>
    if connected = true then
      if publishRc = 0 then ⟨q', true, some PubEvent.published⟩
      else ⟨q', true, some PubEvent.pubError⟩
    else ⟨q', false, some PubEvent.droppedDisconnected⟩

/-- C7: a chunk popped while disconnected is discarded without any publish
attempt and the event is logged at debug severity; a chunk whose publish
fails while connected is logged at error severity and is not re-enqueued
(the queue is exactly the previous queue minus the popped chunk). -/
theorem c7_consumer_discard_no_requeue :
    ∀ (cap : Nat) (c : List Nat) (rest : List (List Nat)) (rc : Int),
      (mqtt_publisher_thread_step ⟨cap, c :: rest⟩ false rc =
        ⟨⟨cap, rest⟩, false, some PubEvent.droppedDisconnected⟩ ∧
       pubEventLog PubEvent.droppedDisconnected = some LogLevel.debug) ∧
      (rc ≠ 0 →
        mqtt_publisher_thread_step ⟨cap, c :: rest⟩ true rc =
          ⟨⟨cap, rest⟩, true, some PubEvent.pubError⟩ ∧
        pubEventLog PubEvent.pubError = some LogLevel.error) := by
  intro cap c rest rc
  refine ⟨⟨rfl, rfl⟩, fun hrc => ⟨?_, rfl⟩⟩
  simp [mqtt_publisher_thread_step, wait_for_and_pop, hrc]

/-- Witness for C7 at concrete inputs. -/
theorem c7_witness :
    mqtt_publisher_thread_step ⟨1, [[5]]⟩ false 0 =
      ⟨⟨1, []⟩, false, some PubEvent.droppedDisconnected⟩ ∧
    mqtt_publisher_thread_step ⟨1, [[5]]⟩ true 7 =
      ⟨⟨1, []⟩, true, some PubEvent.pubError⟩ := by
  have h := c7_consumer_discard_no_requeue 1 [5] [] 7
  exact ⟨(c7_consumer_discard_no_requeue 1 [5] [] 0).1.1, (h.2 (by decide)).1⟩

/-- The five shutdown steps named by the orchestrator specification. -/
inductive ShutdownAction where
  | clearRunFlag
  | joinConsumer
  | stopStreaming
  | releaseDevice
  | disconnectTransport
  deriving DecidableEq

/-- Environment outcomes that select `main`'s exit path (main.cpp lines
199-303): whether `HackRFHandler::init` succeeds, whether
`connect_to_broker` succeeds, whether the broker connects within the 5 s
wait, the value of `hackrf_should_be_streaming` loaded at line 249,
whether the initial `start_rx` succeeds, whether the client still reports
connected at the start-failure check (line 252), and whether the handler
reports streaming (line 290) and the client connected (line 297) at the
final shutdown checks. -/
structure MainEnv where
  initOk : Bool
  connectInitOk : Bool
  connectedInTime : Bool
  shouldStreamAtStart : Bool
  startRxOk : Bool
  connectedAtStartFail : Bool
  streamingAtEnd : Bool
  connectedAtEnd : Bool
  deriving DecidableEq

/-- The ordered sequence of shutdown-relevant actions executed on each
exit path of `main`.  The publisher (consumer) thread is started
unconditionally at line 199, before any of these paths is taken.
Per the source: init failure runs lines 212-213; `connect_to_broker`
failure runs line 229 only and returns; connect timeout runs lines
242-244; initial `start_rx` failure runs lines 252-255; every other exit
falls through to the shutdown block at lines 282-300. -/
def mainShutdownTrace (e : MainEnv) : List ShutdownAction :=
  if e.initOk = false then [ShutdownAction.clearRunFlag, ShutdownAction.joinConsumer]
  else if e.connectInitOk = false then [ShutdownAction.releaseDevice]
  else if e.connectedInTime = false then
    [ShutdownAction.releaseDevice, ShutdownAction.clearRunFlag, ShutdownAction.joinConsumer]
  else if e.shouldStreamAtStart = true ∧ e.startRxOk = false then
    (if e.connectedAtStartFail = true then [ShutdownAction.disconnectTransport] else []) ++
      [ShutdownAction.releaseDevice, ShutdownAction.clearRunFlag, ShutdownAction.joinConsumer]
  else
    [ShutdownAction.clearRunFlag, ShutdownAction.joinConsumer] ++
      (if e.streamingAtEnd = true then [ShutdownAction.stopStreaming] else []) ++
      [ShutdownAction.releaseDevice] ++
      (if e.connectedAtEnd = true then [ShutdownAction.disconnectTransport] else [])

/-- The order claimed by the specification for the shutdown sequence. -/
def canonicalShutdownOrder : List ShutdownAction :=
  [ShutdownAction.clearRunFlag, ShutdownAction.joinConsumer, ShutdownAction.stopStreaming,
   ShutdownAction.releaseDevice, ShutdownAction.disconnectTransport]

/-- A duplicate-free action list follows the canonical order exactly when
it equals the canonical list filtered to its own members. -/
abbrev followsCanonicalOrder (l : List ShutdownAction) : Prop :=
  l = canonicalShutdownOrder.filter (fun a => decide (a ∈ l))

/-- The startup paths that reach the supervisory loop and therefore exit
through the shutdown block at lines 282-300. -/
abbrev startupCompletes (e : MainEnv) : Prop :=
  e.initOk = true ∧ e.connectInitOk = true ∧ e.connectedInTime = true ∧
    (e.shouldStreamAtStart = true → e.startRxOk = true)

/-- C6 counterexample: on the exit path where `connect_to_broker` fails
(main.cpp lines 227-231), `main` releases the device and returns without
clearing the run flag or joining the consumer thread, although the
consumer thread was started; and on the connect-timeout path (lines
240-246) the device is released before the run flag is cleared and the
consumer joined, violating the claimed order. -/
theorem c6_counterexample :
    (mainShutdownTrace ⟨true, false, true, true, true, true, true, true⟩ =
      [ShutdownAction.releaseDevice] ∧
     ShutdownAction.joinConsumer ∉
      mainShutdownTrace ⟨true, false, true, true, true, true, true, true⟩) ∧
    (mainShutdownTrace ⟨true, true, false, true, true, true, true, true⟩ =
      [ShutdownAction.releaseDevice, ShutdownAction.clearRunFlag, ShutdownAction.joinConsumer] ∧
     ¬ followsCanonicalOrder (mainShutdownTrace ⟨true, true, false, true, true, true, true, true⟩)) := by
  decide

/-- C6 amended: once startup completes, every exit runs the shutdown steps
in the order clear run flag, join consumer, stop streaming if active,
release device, disconnect if connected; on every path where the device
was opened it is released; and every path except the
connect-initiation-failure path clears the run flag and joins the
consumer thread. -/
theorem c6_amended_shutdown_order :
    ∀ e : MainEnv,
      (startupCompletes e →
        (followsCanonicalOrder (mainShutdownTrace e) ∧
         ShutdownAction.clearRunFlag ∈ mainShutdownTrace e ∧
         ShutdownAction.joinConsumer ∈ mainShutdownTrace e ∧
         ShutdownAction.releaseDevice ∈ mainShutdownTrace e)) ∧
      (e.initOk = true → ShutdownAction.releaseDevice ∈ mainShutdownTrace e) ∧
      (¬(e.initOk = true ∧ e.connectInitOk = false) →
        ShutdownAction.clearRunFlag ∈ mainShutdownTrace e ∧
        ShutdownAction.joinConsumer ∈ mainShutdownTrace e) := by
  intro e
  rcases e with ⟨a, b, c, d, f, g, h, i⟩
  cases a <;> cases b <;> cases c <;> cases d <;> cases f <;> cases g <;> cases h <;>
    cases i <;> decide

/-- Witness for the amended C6 at a concrete environment. -/
theorem c6_witness :
    followsCanonicalOrder (mainShutdownTrace ⟨true, true, true, true, true, true, true, true⟩) ∧
    ShutdownAction.joinConsumer ∈
      mainShutdownTrace ⟨true, true, true, true, true, true, true, true⟩ := by
  have h := (c6_amended_shutdown_order ⟨true, true, true, true, true, true, true, true⟩).1
    ⟨rfl, rfl, rfl, fun _ => rfl⟩
  exact ⟨h.1, h.2.2.1⟩

/-- Shared state read and written by the control dispatcher's RESUME path
and by `main`'s shutdown path: the `hackrf_should_be_streaming` flag, the
device handle (`device_` non-null), the handler's `streaming_` member, the
device runtime's streaming state, and whether the receive callback is
currently registered with the device runtime (set by `hackrf_start_rx`,
cleared by `hackrf_stop_rx`; no other call in the source unregisters it). -/
structure RaceState where
  flag : Bool
  deviceOpen : Bool
  streamingFlag : Bool
  devStreaming : Bool
  registered : Bool
  deriving DecidableEq

/-- One atomic statement of the control thread running the RESUME branch
of `control_command_handler` (main.cpp lines 171-181), with the device
accepting registration whenever it is open: pc 0 evaluates the guard
reading the flag and `is_streaming`; pc 1 is the whole `start_rx` call;
pc 2 assigns the flag; pc 3 is done. -/
def resumeStep (pc : Nat) (s : RaceState) : Nat × RaceState :=
  match pc with
  | 0 =>
    if s.flag = false ∧ (s.deviceOpen && s.devStreaming) = false then (1, s) else (3, s)
  | 1 =>
    if s.deviceOpen = true ∧ s.streamingFlag = false then
      (2, ⟨s.flag, s.deviceOpen, true, true, true⟩)
    else (3, s)
  | 2 => (3, ⟨true, s.deviceOpen, s.streamingFlag, s.devStreaming, s.registered⟩)
  | _ => (pc, s)

/-- One atomic statement of the main thread's shutdown path (main.cpp
lines 290-295 and hackrf_handler.cpp lines 33-47), with device calls
succeeding: pc 0 is the `is_streaming` check at line 290; pc 1 the
`stop_rx` call at line 292; pc 2 the `if (streaming_) stop_rx()` inside
`deinit`; pc 3 the `hackrf_close` releasing the handle; pc 4 is done. -/
def shutdownStep (pc : Nat) (s : RaceState) : Nat × RaceState :=
  match pc with
  | 0 => if (s.deviceOpen && s.devStreaming) = true then (1, s) else (2, s)
  | 1 =>
    if s.deviceOpen = true ∧ s.streamingFlag = true then
      (2, ⟨s.flag, s.deviceOpen, false, false, false⟩)
    else (2, s)
  | 2 =>
    if s.streamingFlag = true ∧ s.deviceOpen = true then
      (3, ⟨s.flag, s.deviceOpen, false, false, false⟩)
    else (3, s)
  | 3 => (4, ⟨s.flag, false, s.streamingFlag, s.devStreaming, s.registered⟩)
  | _ => (pc, s)

/-- Run an interleaving: each list entry schedules one atomic step of the
control thread (true) or of the shutdown thread (false). -/
def raceRun : List Bool → Nat × Nat × RaceState → Nat × Nat × RaceState
  | [], st => st
  | m :: rest, (cpc, mpc, s) =>
    if m then
      let p := resumeStep cpc s
      raceRun rest (p.1, mpc, p.2)
    else
      let p := shutdownStep mpc s
      raceRun rest (cpc, p.1, p.2)

/-- Initial racy configuration: both threads at their first statement,
stream paused (flag cleared, device open, nothing streaming, callback not
registered), as after a PAUSE command. -/
def raceInit : Nat × Nat × RaceState :=
  (0, 0, ⟨false, true, false, false, false⟩)

/-- An interleaving in which the shutdown thread passes both of its
streaming checks while the control thread is between its RESUME guard and
its `start_rx` call. -/
def badSchedule : List Bool :=
  [true, false, false, true, true, false]

/-- C9 counterexample: the source protects the device handle and stream
state with no lock, and under `badSchedule` both threads run to
completion, shutdown completes (its pc reaches 4), yet the receive
callback is still registered afterwards since no `hackrf_stop_rx` was
ever executed. -/
theorem c9_counterexample :
    (raceRun badSchedule raceInit).1 = 3 ∧
    (raceRun badSchedule raceInit).2.1 = 4 ∧
    (raceRun badSchedule raceInit).2.2.registered = true := by
  decide

/-- C9 amended: the dispatcher and shutdown transitions are not mutually
exclusive, and there exists an interleaving of a concurrent RESUME and
shutdown that leaves the callback registered after shutdown completes;
whereas under either serialized order (the whole RESUME before shutdown,
or the whole shutdown before the RESUME) the callback always ends
unregistered. -/
theorem c9_amended_race_exists :
    (∃ sched : List Bool,
      (raceRun sched raceInit).1 = 3 ∧
      (raceRun sched raceInit).2.1 = 4 ∧
      (raceRun sched raceInit).2.2.registered = true) ∧
    ((raceRun [true, true, true, false, false, false, false] raceInit).2.1 = 4 ∧
     (raceRun [true, true, true, false, false, false, false] raceInit).2.2.registered = false) ∧
    ((raceRun [false, false, false, false, true, true] raceInit).2.1 = 4 ∧
     (raceRun [false, false, false, false, true, true] raceInit).2.2.registered = false) := by
  exact ⟨⟨badSchedule, by decide, by decide, by decide⟩, by decide, by decide⟩

end HackrfMqtt
